import Mathlib

/-!
Verification development for the lidar_align ingestion layer
(src/loader.cpp).  The definitions below are a shallow embedding of
Loader::parsePointcloudMsg, Loader::loadPointcloudFromROSBag,
Loader::loadTformFromROSBag, Loader::loadTformFromMaplabCSV and
Loader::getNextCSVTransform.  Machine doubles are modelled as an
inductive value type carrying a rational for finite values; the C++
finiteness checks become checks of that tag.  Stateful output
parameters become explicit state passing, exceptions become an
explicit result constructor, and the rosbag / ifstream sources become
lists of already-extracted records (with an Option wrapper modelling
whether the container could be opened).
-/

namespace LidarAlign

/-- One machine floating-point value: either a finite number (modelled
as a rational) or one of the non-finite values that fail the C++
isfinite test. -/
inductive FloatVal where
  | finite (val : Rat)
  | nan
  | inf
  | negInf
deriving DecidableEq, Repr

/-- Mirror of isfinite from the C++ filtering code. -/
def FloatVal.isFinite : FloatVal → Bool
  | .finite _ => true
  | _ => false

/-- Modelled from the spec: the RigidTransform of section 3
(transform.h is not under src).  A three-component translation plus a
quaternion rotation stored in w, x, y, z order; the constructor simply
records the seven numbers, with no validation. -/
structure Transform where
  tx : Rat
  ty : Rat
  tz : Rat
  rw : Rat
  rx : Rat
  ry : Rat
  rz : Rat
deriving DecidableEq, Repr

/-- Default-constructed Transform (identity pose), used for the local
variable declared before the CSV parse call. -/
def Transform.identity : Transform :=
  { tx := 0, ty := 0, tz := 0, rw := 1, rx := 0, ry := 0, rz := 0 }

/-- Timestamps are int64 microsecond counts in the C++ code. -/
abbrev Timestamp := Int

/-- Modelled from the spec: the Odom transform accumulator of section
4.4 (odom sources are not under src).  addTransformData appends the
pair and always succeeds; duplicates are retained; empty is true iff
nothing was ever inserted. -/
structure OdomState where
  entries : List (Timestamp × Transform)
deriving DecidableEq, Repr

def OdomState.addTransformData (o : OdomState) (t : Timestamp) (T : Transform) :
    OdomState :=
  { entries := o.entries ++ [(t, T)] }

def OdomState.empty (o : OdomState) : Bool :=
  o.entries.isEmpty

/-! ### Numeric string parsing, modelling std::stoll and std::stod -/

/-- Consume a maximal run of decimal digits, returning the accumulated
value, the number of digits consumed, and the rest of the input. -/
def parseDigitsAux : List Char → Nat → Nat → Nat × Nat × List Char
  | [], acc, n => (acc, n, [])
  | c :: cs, acc, n =>
    if c.isDigit then parseDigitsAux cs (acc * 10 + (c.toNat - 48)) (n + 1)
    else (acc, n, c :: cs)

/-- Skip the leading whitespace that strtoll and strtod accept. -/
def skipSpacesChars : List Char → List Char
  | [] => []
  | c :: cs => if c.isWhitespace then skipSpacesChars cs else c :: cs

/-- Consume an optional leading sign, returning the sign factor and
the rest of the input. -/
def signSplit : List Char → Int × List Char
  | '-' :: rest => (-1, rest)
  | '+' :: rest => (1, rest)
  | cs => (1, cs)

/-- Modelled std::stoll: optional whitespace, optional sign, then a
nonempty digit run (longest prefix); none when no digits can be
consumed, which in C++ is a thrown std::invalid_argument. -/
def parseStoll (cs : List Char) : Option Int :=
  let cs := skipSpacesChars cs
  let (sign, cs) := signSplit cs
  let (v, n, _) := parseDigitsAux cs 0 0
  if n = 0 then none else some (sign * (v : Int))

/-- The rational value of a parsed decimal: mantissa over ten to the
number of fraction digits. -/
def ratOfDec (m : Int) (e : Nat) : Rat :=
  (m : Rat) / (10 : Rat) ^ e

/-- Modelled std::stod restricted to plain fixed-notation decimals
(the only form the CSV contract uses): optional whitespace, optional
sign, digits with an optional decimal point, at least one digit
overall.  Returns mantissa and fraction-digit count; none models the
thrown std::invalid_argument. -/
def parseStodDec (cs : List Char) : Option (Int × Nat) :=
  let cs := skipSpacesChars cs
  let (sign, cs) := signSplit cs
  let (ip, ni, cs) := parseDigitsAux cs 0 0
  match cs with
  | '.' :: rest =>
    let (fp, nf, _) := parseDigitsAux rest 0 0
    if ni = 0 ∧ nf = 0 then none
    else some (sign * ((ip : Int) * (10 : Int) ^ nf + (fp : Int)), nf)
  | _ => if ni = 0 then none else some (sign * (ip : Int), 0)

/-- Modelled std::stod as a rational value. -/
def parseStod (cs : List Char) : Option Rat :=
  (parseStodDec cs).map (fun p => ratOfDec p.1 p.2)

/-! ### Loader::getNextCSVTransform -/

/-- The comment test at line 194 of loader.cpp: the first character of
the line is the comment marker.  Indexing an empty std::string at
position zero yields the null character, which is not the marker. -/
def csvIsComment (line : List Char) : Bool :=
  line.headD (Char.ofNat 0) == '#'

/-- Splitting one line into comma-separated cells exactly as the
std::getline loop at lines 201 to 204 of loader.cpp does: repeated
getline with a comma delimiter yields every comma-separated piece,
except that an empty line yields no cell at all and a line ending in a
comma does not yield a final empty cell (the last getline extracts
nothing and hits end of input, so it fails). -/
def splitCellsAux : List Char → List Char → List (List Char)
  | [], acc => [acc.reverse]
  | c :: cs, acc =>
    if c = ',' then acc.reverse :: splitCellsAux cs []
    else splitCellsAux cs (c :: acc)

def splitCSVCells (line : List Char) : List (List Char) :=
  match line with
  | [] => []
  | _ =>
    if line.getLast? = some ',' then (splitCellsAux line []).dropLast
    else splitCellsAux line []

/-- How one call to Loader::getNextCSVTransform ends: a normal return
of the C++ bool, or an exception escaping from std::stoll or
std::stod. -/
inductive CSVResult where
  | ret (b : Bool)
  | thrown
deriving DecidableEq, Repr

/-- Shallow embedding of Loader::getNextCSVTransform (loader.cpp lines
188 to 226).  The two by-pointer outputs stamp and T become explicit
state: the returned pair carries their values after the call.  A
comment line or a line with fewer than nine cells returns false with
both outputs untouched.  Otherwise the stamp output is assigned first
(raw timestamp via stoll, truncated thousand division), and then the
transform is built from seven stod calls; if any of those fails the
exception escapes after the stamp write but before the transform
write. -/
def getNextCSVTransform (line : List Char) (stamp : Timestamp) (T : Transform) :
    CSVResult × Timestamp × Transform :=
  if csvIsComment line then (.ret false, stamp, T)
  else if (splitCSVCells line).length < 9 then (.ret false, stamp, T)
  else
    match parseStoll ((splitCSVCells line).getD 0 []) with
    | none => (.thrown, stamp, T)
    | some raw =>
      match parseStod ((splitCSVCells line).getD 2 []),
            parseStod ((splitCSVCells line).getD 3 []),
            parseStod ((splitCSVCells line).getD 4 []),
            parseStod ((splitCSVCells line).getD 5 []),
            parseStod ((splitCSVCells line).getD 6 []),
            parseStod ((splitCSVCells line).getD 7 []),
            parseStod ((splitCSVCells line).getD 8 []) with
      | some x, some y, some z, some qw, some qx, some qy, some qz =>
        (.ret true, Int.tdiv raw 1000,
          { tx := x, ty := y, tz := z, rw := qw, rx := qx, ry := qy, rz := qz })
      | _, _, _, _, _, _, _ => (.thrown, Int.tdiv raw 1000, T)

/-! ### Loader::loadTformFromMaplabCSV -/

/-- Shallow embedding of the while loop of loadTformFromMaplabCSV
(loader.cpp lines 172 to 182): the stream is a list of lines; each
iteration declares a fresh stamp and default transform, parses the
next line, and appends to the accumulator only when the parse returned
true.  none models an exception escaping the loop (there is no catch
in the C++ function). -/
def loadCSVLoop : List (List Char) → OdomState → Option OdomState
  | [], odom => some odom
  | line :: rest, odom =>
    match getNextCSVTransform line 0 Transform.identity with
    | (.thrown, _, _) => none
    | (.ret true, stamp, T) => loadCSVLoop rest (odom.addTransformData stamp T)
    | (.ret false, _, _) => loadCSVLoop rest odom

/-- Shallow embedding of Loader::loadTformFromMaplabCSV (loader.cpp
lines 168 to 185).  The file argument is none when the ifstream could
not be opened: an unopened ifstream reports end of file at once, so
the loop body never runs.  The function returns true on every normal
exit; there is no open check and no emptiness check. -/
def loadTformFromMaplabCSV (file : Option (List (List Char))) (odom : OdomState) :
    Option (Bool × OdomState) :=
  match file with
  | none => some (true, odom)
  | some lines =>
    match loadCSVLoop lines odom with
    | none => none
    | some odom2 => some (true, odom2)

/-! ### Point representation and Loader::parsePointcloudMsg -/

/-- The pcl header copied from the decoded cloud to the output cloud. -/
structure Header where
  seq : Nat
  stamp : Nat
  frame_id : String
deriving DecidableEq, Repr

/-- Modelled from the spec: the unified internal point type
PointAllFields of section 3 (loader.h is not under src).  It can hold
coordinates, the optional intensity and the optional per-point time
offset; fields a decode path does not set keep their default value. -/
structure PointAllFields where
  x : FloatVal
  y : FloatVal
  z : FloatVal
  intensity : FloatVal
  time_offset_us : Int
deriving DecidableEq, Repr

/-- A PointCloud2 record as the detector sees it: the declared field
names, the header, and the decoded rows of the point buffer.  A row
carries every field the fully-typed schema can provide; a decode path
projects out just the fields its schema declares. -/
structure PointCloud2 where
  fields : List String
  header : Header
  points : List PointAllFields
deriving DecidableEq, Repr

/-- The output cloud type LoaderPointcloud: a header plus the decoded
points. -/
structure LoaderPointcloud where
  header : Header
  points : List PointAllFields
deriving DecidableEq, Repr

/-- The field-name scan at loader.cpp lines 23 to 29: the time-offset
flag. -/
def hasTiming (msg : PointCloud2) : Bool :=
  msg.fields.any (fun f => f == "time_offset_us")

/-- The field-name scan at loader.cpp lines 23 to 29: the intensity
flag. -/
def hasIntensity (msg : PointCloud2) : Bool :=
  msg.fields.any (fun f => f == "intensity")

/-- Decoding one row as pcl PointXYZI and copying it into a
default-initialised PointAllFields, as lines 39 to 43 do: coordinates
and intensity are copied, the time offset keeps its default. -/
def mkPointI (r : PointAllFields) : PointAllFields :=
  { x := r.x, y := r.y, z := r.z, intensity := r.intensity, time_offset_us := 0 }

/-- Decoding one row as pcl PointXYZ and copying it into a
default-initialised PointAllFields, as lines 58 to 61 do: only the
coordinates are copied. -/
def mkPointXYZ (r : PointAllFields) : PointAllFields :=
  { x := r.x, y := r.y, z := r.z, intensity := .finite 0, time_offset_us := 0 }

/-- The finiteness test at lines 45 to 48: x, y, z and intensity. -/
def pointFinite4 (p : PointAllFields) : Bool :=
  p.x.isFinite && p.y.isFinite && p.z.isFinite && p.intensity.isFinite

/-- The finiteness test at lines 63 to 64: x, y and z only. -/
def pointFinite3 (p : PointAllFields) : Bool :=
  p.x.isFinite && p.y.isFinite && p.z.isFinite

/-- Shallow embedding of Loader::parsePointcloudMsg (loader.cpp lines
19 to 72).  With a time-offset field the record is decoded directly
(pcl fromROSMsg copies every row unchanged).  Otherwise each row is
rebuilt as a PointAllFields and kept only when its required fields are
finite; the header is copied from the decoded cloud in every path. -/
def parsePointcloudMsg (msg : PointCloud2) : LoaderPointcloud :=
  if hasTiming msg then
    { header := msg.header, points := msg.points }
  else if hasIntensity msg then
    { header := msg.header,
      points := (msg.points.map mkPointI).filter pointFinite4 }
  else
    { header := msg.header,
      points := (msg.points.map mkPointXYZ).filter pointFinite3 }

/-- The required-field finiteness predicate of the spec, section 3: x,
y and z always, intensity only when the record declares it. -/
def requiredFinite (msg : PointCloud2) (r : PointAllFields) : Bool :=
  r.x.isFinite && r.y.isFinite && r.z.isFinite &&
    (!hasIntensity msg || r.intensity.isFinite)

/-- The PointAllFields a non-trusted decode path builds from one row. -/
def decodedPoint (msg : PointCloud2) (r : PointAllFields) : PointAllFields :=
  if hasIntensity msg then mkPointI r else mkPointXYZ r

/-! ### Scan accumulator and Loader::loadPointcloudFromROSBag -/

/-- Modelled from the spec: the Lidar scan accumulator of section 4.3
(lidar sources are not under src).  addPointcloud appends the cloud
unconditionally; getNumberOfScans and getTotalPoints are pure
queries.  Cap enforcement is not internal to this component. -/
structure LidarState where
  scans : List LoaderPointcloud
deriving DecidableEq, Repr

def LidarState.addPointcloud (l : LidarState) (pc : LoaderPointcloud) : LidarState :=
  { scans := l.scans ++ [pc] }

def LidarState.getNumberOfScans (l : LidarState) : Nat :=
  l.scans.length

def LidarState.getTotalPoints (l : LidarState) : Nat :=
  (l.scans.map (fun s => s.points.length)).sum

/-- The message loop of loadPointcloudFromROSBag (loader.cpp lines 89
to 103): parse each PointCloud2 record, feed the accumulator, and
break as soon as the scan count has reached the configured cap. -/
def loadScanLoop (cap : Nat) : List PointCloud2 → LidarState → LidarState
  | [], l => l
  | m :: rest, l =>
    let l2 := l.addPointcloud (parsePointcloudMsg m)
    if cap ≤ l2.getNumberOfScans then l2 else loadScanLoop cap rest l2

/-- The accumulator state after each addPointcloud call of the loop,
in order, used to state that the scan count stays within bounds at
every point during the load. -/
def loadScanStates (cap : Nat) : List PointCloud2 → LidarState → List LidarState
  | [], _ => []
  | m :: rest, l =>
    let l2 := l.addPointcloud (parsePointcloudMsg m)
    if cap ≤ l2.getNumberOfScans then [l2] else l2 :: loadScanStates cap rest l2

/-- Shallow embedding of Loader::loadPointcloudFromROSBag (loader.cpp
lines 74 to 112).  The opens flag models whether bag open succeeded
(on failure the function returns false at once, untouched
accumulator); msgs is the list of PointCloud2 records the bag view
yields; after the loop a zero total point count is reported as
failure. -/
def loadPointcloudFromROSBag (opens : Bool) (cap : Nat) (msgs : List PointCloud2)
    (lidar : LidarState) : Bool × LidarState :=
  if !opens then (false, lidar)
  else
    let lidar2 := loadScanLoop cap msgs lidar
    if lidar2.getTotalPoints = 0 then (false, lidar2) else (true, lidar2)

/-! ### Loader::loadTformFromROSBag -/

/-- One geometry_msgs PoseStamped record as the loader reads it: the
header stamp split into seconds and nanoseconds, the position and the
orientation. -/
structure PoseStamped where
  stampSec : Nat
  stampNsec : Nat
  px : Rat
  py : Rat
  pz : Rat
  ow : Rat
  ox : Rat
  oy : Rat
  oz : Rat
deriving DecidableEq, Repr

/-- The microsecond conversion at loader.cpp lines 138 to 139. -/
def poseStamp (m : PoseStamped) : Timestamp :=
  ((m.stampSec * 1000000 + m.stampNsec / 1000 : Nat) : Int)

/-- The transform construction at loader.cpp lines 150 to 156. -/
def poseTransform (m : PoseStamped) : Transform :=
  { tx := m.px, ty := m.py, tz := m.pz,
    rw := m.ow, rx := m.ox, ry := m.oy, rz := m.oz }

/-- Shallow embedding of Loader::loadTformFromROSBag (loader.cpp lines
114 to 166): on a successful open every PoseStamped record is
converted and appended unconditionally, and an accumulator that ends
empty is reported as failure. -/
def loadTformFromROSBag (opens : Bool) (msgs : List PoseStamped)
    (odom : OdomState) : Bool × OdomState :=
  if !opens then (false, odom)
  else
    let odom2 := msgs.foldl
      (fun o m => o.addTransformData (poseStamp m) (poseTransform m)) odom
    if odom2.empty then (false, odom2) else (true, odom2)

/-! ## Theorems -/

/-! ### Concrete inputs used by witnesses and counterexamples -/

def c6Line : List Char := "1000000,0,1.0,2.0,3.0,1.0,0.0,0.0,0.0".data

def c6LineAlt : List Char := "1000000,unused-cell,1.0,2.0,3.0,1.0,0.0,0.0,0.0".data

def c8CommentLine : List Char := "# maplab vertices header".data

def c8ShortLine : List Char := "0,1,2,3,4".data

def c9BadLine : List Char := "abc,0,1.0,2.0,3.0,1.0,0.0,0.0,0.0".data

def c10ThrowLine : List Char := "5000,0,abc,1.0,1.0,1.0,0.0,0.0,0.0".data

/-- Claim C6: parsing the given nine-column CSV line succeeds and
yields timestamp 1000 (the raw value 1000000 divided by 1000),
translation (1, 2, 3) from columns 2 to 4 and rotation w 1, x 0, y 0,
z 0 from columns 5 to 8; column 1 is unused, so replacing it by a
non-numeric cell leaves the result unchanged. -/
theorem csv_line_roundtrip :
    getNextCSVTransform c6Line 0 Transform.identity =
      (.ret true, 1000,
        { tx := 1, ty := 2, tz := 3, rw := 1, rx := 0, ry := 0, rz := 0 })
    ∧ getNextCSVTransform c6LineAlt 0 Transform.identity =
        getNextCSVTransform c6Line 0 Transform.identity := by
  constructor
  · have h : getNextCSVTransform c6Line 0 Transform.identity =
        (.ret true, 1000,
          { tx := ratOfDec 10 1, ty := ratOfDec 20 1, tz := ratOfDec 30 1,
            rw := ratOfDec 10 1, rx := ratOfDec 0 1, ry := ratOfDec 0 1,
            rz := ratOfDec 0 1 }) := rfl
    rw [h]
    norm_num [ratOfDec]
  · rfl

/-- Claim C8: a line whose first character is the comment marker, or a
line with fewer than nine comma-separated cells, makes
getNextCSVTransform return false without touching its outputs and
without any error, and the CSV loading loop leaves the transform
accumulator unchanged for that line. -/
theorem csv_skip_line (line : List Char) (s : Timestamp) (T : Transform)
    (h : csvIsComment line = true ∨ (splitCSVCells line).length < 9) :
    getNextCSVTransform line s T = (.ret false, s, T)
    ∧ ∀ rest odom, loadCSVLoop (line :: rest) odom = loadCSVLoop rest odom := by
  have hfalse : ∀ (s3 : Timestamp) (T3 : Transform),
      getNextCSVTransform line s3 T3 = (.ret false, s3, T3) := by
    intro s3 T3
    unfold getNextCSVTransform
    rcases h with hc | hs
    · simp [hc]
    · by_cases hc : csvIsComment line
      · simp [hc]
      · simp [hc, hs]
  refine ⟨hfalse s T, fun rest odom => ?_⟩
  simp [loadCSVLoop, hfalse 0 Transform.identity]

/-- Witness for claim C8, at a concrete comment line and a concrete
five-column line. -/
theorem csv_skip_line_witness :
    getNextCSVTransform c8CommentLine 7 Transform.identity =
      (.ret false, 7, Transform.identity)
    ∧ loadCSVLoop [c8CommentLine] { entries := [] } = some { entries := [] }
    ∧ getNextCSVTransform c8ShortLine 7 Transform.identity =
        (.ret false, 7, Transform.identity) := by
  refine ⟨(csv_skip_line c8CommentLine 7 Transform.identity (Or.inl (by decide))).1,
    ?_, (csv_skip_line c8ShortLine 7 Transform.identity (Or.inr (by decide))).1⟩
  rw [(csv_skip_line c8CommentLine 7 Transform.identity (Or.inl (by decide))).2 []
        { entries := [] }]
  rfl

/-- Claim C9: on a non-comment line with at least nine cells in which
the timestamp column or one of the seven numeric pose columns does not
parse as a number, getNextCSVTransform ends by an escaping exception
rather than by returning true or false. -/
theorem csv_bad_number (line : List Char) (s : Timestamp) (T : Transform)
    (hc : csvIsComment line = false)
    (hlen : 9 ≤ (splitCSVCells line).length)
    (hbad : parseStoll ((splitCSVCells line).getD 0 []) = none ∨
            parseStod ((splitCSVCells line).getD 2 []) = none ∨
            parseStod ((splitCSVCells line).getD 3 []) = none ∨
            parseStod ((splitCSVCells line).getD 4 []) = none ∨
            parseStod ((splitCSVCells line).getD 5 []) = none ∨
            parseStod ((splitCSVCells line).getD 6 []) = none ∨
            parseStod ((splitCSVCells line).getD 7 []) = none ∨
            parseStod ((splitCSVCells line).getD 8 []) = none) :
    (getNextCSVTransform line s T).1 = CSVResult.thrown := by
  unfold getNextCSVTransform
  rw [if_neg (by simp [hc]), if_neg (Nat.not_lt.mpr hlen)]
  cases h0 : parseStoll ((splitCSVCells line).getD 0 []) with
  | none => rfl
  | some raw =>
    rcases hbad with hb | hb | hb | hb | hb | hb | hb | hb
    · rw [h0] at hb
      exact absurd hb (by simp)
    all_goals (split <;> simp_all)

/-- Witness for claim C9, at a concrete line whose timestamp column is
non-numeric. -/
theorem csv_bad_number_witness :
    (getNextCSVTransform c9BadLine 0 Transform.identity).1 = CSVResult.thrown :=
  csv_bad_number c9BadLine 0 Transform.identity (by decide) (by decide)
    (Or.inl (by decide))

/-- Claim C10 counterexample: on this line the call does not return
true (std::stod throws on the non-numeric column 2), yet the timestamp
output has been overwritten with 5 (the raw 5000 divided by 1000)
before the throw, so the function does not write its outputs only on
the success path. -/
theorem csv_stamp_write_counterexample :
    (getNextCSVTransform c10ThrowLine 0 Transform.identity).1 ≠ CSVResult.ret true
    ∧ (getNextCSVTransform c10ThrowLine 0 Transform.identity).2.1 = 5
    ∧ (5 : Timestamp) ≠ 0 := by decide

/-- Claim C10 (amended): whenever getNextCSVTransform returns false
the caller-supplied outputs are left unmodified, and the transform
output is written only on the success path; the timestamp output,
however, may additionally be overwritten by a call that throws after
its raw timestamp column parsed. -/
theorem csv_false_frame (line : List Char) (s : Timestamp) (T : Transform)
    (r : CSVResult) (s2 : Timestamp) (T2 : Transform)
    (h : getNextCSVTransform line s T = (r, s2, T2)) :
    (r = CSVResult.ret false → s2 = s ∧ T2 = T)
    ∧ (r ≠ CSVResult.ret true → T2 = T) := by
  unfold getNextCSVTransform at h
  by_cases h1 : csvIsComment line = true
  · rw [if_pos h1] at h
    injection h with h1 h2
    injection h2 with h2 h3
    subst h1 h2 h3
    exact ⟨fun _ => ⟨rfl, rfl⟩, fun _ => rfl⟩
  · rw [if_neg h1] at h
    by_cases h2 : (splitCSVCells line).length < 9
    · rw [if_pos h2] at h
      injection h with h1 h2
      injection h2 with h2 h3
      subst h1 h2 h3
      exact ⟨fun _ => ⟨rfl, rfl⟩, fun _ => rfl⟩
    · rw [if_neg h2] at h
      split at h <;> [skip; (split at h <;> [skip; skip])] <;>
      · injection h with h1 h2
        injection h2 with h2 h3
        subst h1 h2 h3
        refine ⟨fun hh => ?_, fun hh => ?_⟩ <;> simp_all

/-- Witness for claim C10, applying the frame theorem at a concrete
comment line. -/
theorem csv_false_frame_witness :
    (7 : Timestamp) = 7 ∧ Transform.identity = Transform.identity :=
  (csv_false_frame c8CommentLine 7 Transform.identity (CSVResult.ret false) 7
      Transform.identity (by decide)).1 rfl

/-! ### Point-cloud detector claims -/

/-- The required-field test on the point a decode path builds agrees
with the required-field test on the source row, intensity branch. -/
lemma requiredFinite_of_intensity (msg : PointCloud2) (r : PointAllFields)
    (hi : hasIntensity msg = true) :
    requiredFinite msg r = pointFinite4 (mkPointI r) := by
  simp [requiredFinite, pointFinite4, mkPointI, hi]

/-- The required-field test on the point a decode path builds agrees
with the required-field test on the source row, bare-coordinates
branch. -/
lemma requiredFinite_of_xyz (msg : PointCloud2) (r : PointAllFields)
    (hi : hasIntensity msg = false) :
    requiredFinite msg r = pointFinite3 (mkPointXYZ r) := by
  simp [requiredFinite, pointFinite3, mkPointXYZ, hi]

/-- Claim C1: a record declaring the per-point time-offset field takes
the trusted direct-decode path: the output holds exactly the input
points (no finite-value filtering), whatever their values, so the
output point count equals the input point count. -/
theorem trusted_path_no_filter (msg : PointCloud2) (h : hasTiming msg = true) :
    parsePointcloudMsg msg = { header := msg.header, points := msg.points }
    ∧ (parsePointcloudMsg msg).points.length = msg.points.length := by
  unfold parsePointcloudMsg
  rw [if_pos h]
  exact ⟨rfl, rfl⟩

def c1Msg : PointCloud2 :=
  { fields := ["x", "y", "z", "intensity", "time_offset_us"],
    header := { seq := 1, stamp := 10, frame_id := "os1_lidar" },
    points :=
      [ { x := .nan, y := .finite 1, z := .inf, intensity := .negInf,
          time_offset_us := 12 },
        { x := .finite 2, y := .finite 3, z := .finite 4, intensity := .finite 5,
          time_offset_us := 34 } ] }

/-- Witness for claim C1, at a concrete record containing non-finite
coordinate and intensity values. -/
theorem trusted_path_no_filter_witness :
    parsePointcloudMsg c1Msg = { header := c1Msg.header, points := c1Msg.points }
    ∧ (parsePointcloudMsg c1Msg).points.length = c1Msg.points.length :=
  trusted_path_no_filter c1Msg (by decide)

/-- Claim C2: without a time-offset field every output point has
finite x, y and z, and finite intensity when the record declares an
intensity field; the decoded form of any input row with a non-finite
required field is absent from the output, and the output count is at
most the input count. -/
theorem filtered_path_finite (msg : PointCloud2) (h : hasTiming msg = false) :
    (∀ q ∈ (parsePointcloudMsg msg).points,
        q.x.isFinite = true ∧ q.y.isFinite = true ∧ q.z.isFinite = true
        ∧ (hasIntensity msg = true → q.intensity.isFinite = true))
    ∧ (∀ r ∈ msg.points, requiredFinite msg r = false →
        decodedPoint msg r ∉ (parsePointcloudMsg msg).points)
    ∧ (parsePointcloudMsg msg).points.length ≤ msg.points.length := by
  unfold parsePointcloudMsg
  rw [if_neg (by simp [h])]
  by_cases hi : hasIntensity msg = true
  · rw [if_pos hi]
    refine ⟨?_, ?_, ?_⟩
    · intro q hq
      rw [List.mem_filter] at hq
      have h4 := hq.2
      simp only [pointFinite4, Bool.and_eq_true] at h4
      exact ⟨h4.1.1.1, h4.1.1.2, h4.1.2, fun _ => h4.2⟩
    · intro r _ hbad hmem
      rw [List.mem_filter] at hmem
      have h4 : pointFinite4 (decodedPoint msg r) = true := hmem.2
      rw [requiredFinite_of_intensity msg r hi] at hbad
      simp only [decodedPoint, hi, if_pos] at h4
      rw [hbad] at h4
      exact Bool.false_ne_true h4
    · exact (List.length_filter_le _ _).trans (by rw [List.length_map])
  · rw [if_neg hi]
    have hi2 : hasIntensity msg = false := by
      cases hx : hasIntensity msg
      · rfl
      · exact absurd hx hi
    refine ⟨?_, ?_, ?_⟩
    · intro q hq
      rw [List.mem_filter] at hq
      have h3 := hq.2
      simp only [pointFinite3, Bool.and_eq_true] at h3
      exact ⟨h3.1.1, h3.1.2, h3.2, fun hx => absurd hx hi⟩
    · intro r _ hbad hmem
      rw [List.mem_filter] at hmem
      have h3 : pointFinite3 (decodedPoint msg r) = true := hmem.2
      rw [requiredFinite_of_xyz msg r hi2] at hbad
      simp only [decodedPoint, hi2, Bool.false_eq_true, if_false] at h3
      rw [hbad] at h3
      exact Bool.false_ne_true h3
    · exact (List.length_filter_le _ _).trans (by rw [List.length_map])

def c2Msg : PointCloud2 :=
  { fields := ["x", "y", "z", "intensity"],
    header := { seq := 2, stamp := 20, frame_id := "velodyne" },
    points :=
      [ { x := .finite 2, y := .finite 3, z := .finite 4, intensity := .finite 5,
          time_offset_us := 0 },
        { x := .nan, y := .finite 1, z := .finite 1, intensity := .finite 1,
          time_offset_us := 0 } ] }

def c2BadPoint : PointAllFields :=
  { x := .nan, y := .finite 1, z := .finite 1, intensity := .finite 1,
    time_offset_us := 0 }

/-- Witness for claim C2, at a concrete intensity-schema record with
one good row and one row whose x is not finite. -/
theorem filtered_path_finite_witness :
    decodedPoint c2Msg c2BadPoint ∉ (parsePointcloudMsg c2Msg).points
    ∧ (parsePointcloudMsg c2Msg).points.length ≤ c2Msg.points.length :=
  ⟨(filtered_path_finite c2Msg (by decide)).2.1 c2BadPoint (by decide) (by decide),
   (filtered_path_finite c2Msg (by decide)).2.2⟩

/-! ### Load orchestrator claims -/

/-- Adding one cloud grows the scan sequence by one. -/
lemma addPointcloud_scans (l : LidarState) (pc : LoaderPointcloud) :
    (l.addPointcloud pc).getNumberOfScans = l.getNumberOfScans + 1 := by
  simp [LidarState.addPointcloud, LidarState.getNumberOfScans]

/-- The scan loop invariant: started strictly below the cap with
enough records left to reach it, the loop ends exactly at the cap and
every intermediate accumulator state stays at or below the cap. -/
lemma loadScanLoop_reaches_cap (cap : Nat) (msgs : List PointCloud2) :
    ∀ l : LidarState, l.getNumberOfScans < cap →
      cap - l.getNumberOfScans ≤ msgs.length →
      (loadScanLoop cap msgs l).getNumberOfScans = cap
      ∧ ∀ st ∈ loadScanStates cap msgs l, st.getNumberOfScans ≤ cap := by
  induction msgs with
  | nil =>
    intro l h1 h2
    simp only [List.length_nil, Nat.le_zero] at h2
    omega
  | cons m rest ih =>
    intro l h1 h2
    have hadd := addPointcloud_scans l (parsePointcloudMsg m)
    by_cases hc : cap ≤ (l.addPointcloud (parsePointcloudMsg m)).getNumberOfScans
    · have heq : (l.addPointcloud (parsePointcloudMsg m)).getNumberOfScans = cap := by
        omega
      constructor
      · simp only [loadScanLoop, if_pos hc]
        exact heq
      · simp only [loadScanStates, if_pos hc, List.mem_singleton]
        intro st hst
        rw [hst, heq]
    · have h1b : (l.addPointcloud (parsePointcloudMsg m)).getNumberOfScans < cap := by
        omega
      have h2b : cap - (l.addPointcloud (parsePointcloudMsg m)).getNumberOfScans ≤
          rest.length := by
        simp only [List.length_cons] at h2
        omega
      have hr := ih (l.addPointcloud (parsePointcloudMsg m)) h1b h2b
      constructor
      · simp only [loadScanLoop, if_neg hc]
        exact hr.1
      · simp only [loadScanStates, if_neg hc, List.mem_cons]
        intro st hst
        rcases hst with hst | hst
        · rw [hst]
          omega
        · exact hr.2 st hst
/-- The accumulator a successful open hands back is the loop result,
whichever way the empty check goes. -/
lemma loadPointcloudFromROSBag_snd (cap : Nat) (msgs : List PointCloud2)
    (lidar : LidarState) :
    (loadPointcloudFromROSBag true cap msgs lidar).2 = loadScanLoop cap msgs lidar := by
  unfold loadPointcloudFromROSBag
  by_cases hz : (loadScanLoop cap msgs lidar).getTotalPoints = 0 <;>
    simp [hz]

def c3Msg : PointCloud2 :=
  { fields := ["x", "y", "z", "intensity", "time_offset_us"],
    header := { seq := 3, stamp := 30, frame_id := "lidar" },
    points :=
      [ { x := .finite 1, y := .finite 2, z := .finite 3, intensity := .finite 4,
          time_offset_us := 0 } ] }

/-- Claim C3 counterexample: with the cap configured to zero and a bag
holding more than zero records, the loader still accumulates one scan
(the cap test only runs after a record has been added), so the scan
count both differs from the cap and exceeds it. -/
theorem scan_cap_counterexample :
    0 < ([c3Msg] : List PointCloud2).length
    ∧ ((loadPointcloudFromROSBag true 0 [c3Msg] { scans := [] }).2).getNumberOfScans
        ≠ 0 := by decide

/-- Claim C3 (amended): for every cap of at least one and every bag
holding more than cap records, the loader accumulates exactly cap
scans and the accumulator scan count never exceeds the cap at any
point during the load; with cap zero one scan is still accumulated. -/
theorem scan_cap_amended (cap : Nat) (msgs : List PointCloud2)
    (hcap : 1 ≤ cap) (hlen : cap < msgs.length) :
    ((loadPointcloudFromROSBag true cap msgs { scans := [] }).2).getNumberOfScans = cap
    ∧ ∀ st ∈ loadScanStates cap msgs { scans := [] }, st.getNumberOfScans ≤ cap := by
  have h0 : ({ scans := [] } : LidarState).getNumberOfScans = 0 := rfl
  have hinv := loadScanLoop_reaches_cap cap msgs { scans := [] }
    (by omega) (by omega)
  exact ⟨by rw [loadPointcloudFromROSBag_snd]; exact hinv.1, hinv.2⟩

/-- Witness for claim C3, with cap one and a two-record bag. -/
theorem scan_cap_amended_witness :
    ((loadPointcloudFromROSBag true 1 [c3Msg, c3Msg] { scans := [] }).2).getNumberOfScans
      = 1 :=
  (scan_cap_amended 1 [c3Msg, c3Msg] (by decide) (by decide)).1

def c4CsvLines : List (List Char) := ["# only a comment, no data rows".data]

/-- Claim C4 counterexample: a CSV source that opens and is fully
consumed but yields zero transform samples still makes
loadTformFromMaplabCSV return success, so the delimited-text loader
does not report the empty result as a failure. -/
theorem csv_empty_success_counterexample :
    loadTformFromMaplabCSV (some c4CsvLines) { entries := [] } =
      some (true, { entries := [] }) := by decide

/-- Claim C4 (amended): the scan loader and the structured-record
transform loader report failure when the fully consumed source yielded
zero usable records (zero total points, empty transform accumulator);
the delimited-text transform loader, however, returns success on every
run that does not throw, even with zero samples. -/
theorem empty_result_failure (cap : Nat) (msgs : List PointCloud2)
    (lidar : LidarState) (pmsgs : List PoseStamped) (odom : OdomState)
    (lines : List (List Char)) (odom2 : OdomState) (res : Bool × OdomState)
    (hpc : (loadPointcloudFromROSBag true cap msgs lidar).2.getTotalPoints = 0)
    (hod : (loadTformFromROSBag true pmsgs odom).2.empty = true)
    (hcsv : loadTformFromMaplabCSV (some lines) odom2 = some res) :
    (loadPointcloudFromROSBag true cap msgs lidar).1 = false
    ∧ (loadTformFromROSBag true pmsgs odom).1 = false
    ∧ res.1 = true := by
  refine ⟨?_, ?_, ?_⟩
  · unfold loadPointcloudFromROSBag at hpc ⊢
    by_cases hz : (loadScanLoop cap msgs lidar).getTotalPoints = 0
    · simp [hz]
    · simp only [Bool.not_true, Bool.false_eq_true, if_false, if_neg hz] at hpc
      exact absurd hpc hz
  · unfold loadTformFromROSBag at hod ⊢
    by_cases hz : (pmsgs.foldl
        (fun o m => o.addTransformData (poseStamp m) (poseTransform m)) odom).empty =
        true
    · simp [hz]
    · simp only [Bool.not_true, Bool.false_eq_true, if_false, if_neg hz] at hod
      exact absurd hod hz
  · cases hl : loadCSVLoop lines odom2 with
    | none =>
      simp only [loadTformFromMaplabCSV, hl] at hcsv
      exact Option.noConfusion hcsv
    | some o =>
      simp only [loadTformFromMaplabCSV, hl] at hcsv
      injection hcsv with hcsv
      rw [← hcsv]

/-- Witness for claim C4: an empty bag view for each bag loader and a
comment-only CSV file. -/
theorem empty_result_failure_witness :
    (loadPointcloudFromROSBag true 3 [] { scans := [] }).1 = false
    ∧ (loadTformFromROSBag true [] { entries := [] }).1 = false
    ∧ (true, ({ entries := [] } : OdomState)).1 = true :=
  empty_result_failure 3 [] { scans := [] } [] { entries := [] } c4CsvLines
    { entries := [] } (true, { entries := [] }) (by decide) (by decide) (by decide)

/-- Claim C5 counterexample: a CSV path that cannot be opened (the
unopened stream reports end of file at once) makes
loadTformFromMaplabCSV return success rather than report a failure. -/
theorem csv_open_success_counterexample :
    loadTformFromMaplabCSV none { entries := [] } = some (true, { entries := [] }) :=
  rfl

/-- Claim C5 (amended): on an open failure the two bag loaders return
failure immediately with nothing decoded and nothing added to their
accumulator; the delimited-text loader also decodes nothing and adds
nothing, but returns success instead of failure. -/
theorem open_failure_aborts (cap : Nat) (msgs : List PointCloud2)
    (lidar : LidarState) (pmsgs : List PoseStamped) (odom : OdomState)
    (odom2 : OdomState) :
    loadPointcloudFromROSBag false cap msgs lidar = (false, lidar)
    ∧ loadTformFromROSBag false pmsgs odom = (false, odom)
    ∧ loadTformFromMaplabCSV none odom2 = some (true, odom2) :=
  ⟨rfl, rfl, rfl⟩

/-- The transform accumulator after the structured-record loop is the
initial contents followed by one converted entry per record. -/
lemma odom_foldl_entries (msgs : List PoseStamped) :
    ∀ odom : OdomState,
      (msgs.foldl (fun o m => o.addTransformData (poseStamp m) (poseTransform m))
          odom).entries
        = odom.entries ++ msgs.map (fun m => (poseStamp m, poseTransform m)) := by
  induction msgs with
  | nil =>
    intro o
    simp
  | cons m rest ih =>
    intro o
    rw [List.foldl_cons, ih]
    simp [OdomState.addTransformData]

/-- The accumulator a successful structured-record load hands back is
the fold result, whichever way the empty check goes. -/
lemma loadTformFromROSBag_snd (pmsgs : List PoseStamped) (odom : OdomState) :
    (loadTformFromROSBag true pmsgs odom).2 =
      pmsgs.foldl (fun o m => o.addTransformData (poseStamp m) (poseTransform m))
        odom := by
  unfold loadTformFromROSBag
  by_cases hz : (pmsgs.foldl
      (fun o m => o.addTransformData (poseStamp m) (poseTransform m)) odom).empty =
      true <;>
    simp [hz]

def c7Msg : PoseStamped :=
  { stampSec := 5, stampNsec := 500000000,
    px := 1, py := 2, pz := 3, ow := 1, ox := 0, oy := 0, oz := 0 }

/-- Claim C7: every timestamp the structured-record loader stores is
seconds times one million plus nanoseconds divided by one thousand, in
integer arithmetic; in particular seconds 5 and nanoseconds 500000000
yield 5500000 microseconds. -/
theorem pose_stamp_conversion :
    (∀ (msgs : List PoseStamped) (odom : OdomState),
        ((loadTformFromROSBag true msgs odom).2).entries.map Prod.fst
          = odom.entries.map Prod.fst
            ++ msgs.map (fun m =>
                ((m.stampSec * 1000000 + m.stampNsec / 1000 : Nat) : Int)))
    ∧ ((loadTformFromROSBag true [c7Msg] { entries := [] }).2).entries.map Prod.fst
        = [5500000] := by
  constructor
  · intro msgs odom
    rw [loadTformFromROSBag_snd, odom_foldl_entries]
    simp [poseStamp]
  · decide

end LidarAlign
